import Mathlib

/-!
Verification of the `cosclient` library (package `cosclient`, files
`client/client.go` and an earlier variant of the same package).

The Go code is shallowly embedded: every network interaction is made an
explicit input (an outcome value describing what the wire returned), mutable
client state is passed explicitly, Go `time.Time`/`time.Duration` values are
modelled as `Int` instants (the only operations used are `Add` and the strict
comparison `Before`), and Go maps are modelled as association lists whose
`lookup` returns the most recently written binding.
-/

namespace CosClient

/-- The refresh lookahead `refreshTime = time.Minute * 5` from `client.go`,
in seconds (the unit is irrelevant: only the ordering `now + refreshTime <
expires` is ever used). -/
def refreshTime : Int := 5 * 60

/-- The mutable fields of `COSClient` (client.go lines 31-41).  `Endpoints`
is the per-client bucket cache, documented in the source as
`map[string]string // BucketName -> URL`; it is modelled as an association
list where a Go map write `m[k] = v` conses `(k, v)` in front, and
`List.lookup` returns the newest binding. -/
structure COSClient where
  apiKey : String
  iamEndpoint : String
  id : String
  token : String
  expires : Int
  endpoints : List (String × String)
deriving DecidableEq, Repr

/-- `NewClient(apikey, id)` (client.go lines 113-136).  The body performs no
I/O: the `client.Refresh()` call is commented out in the source, so the
embedding is a pure function.  The zero `time.Time` is modelled as instant
`0` and the nil `Endpoints` map as `[]`. -/
def newClient (apikey id : String) : Except String COSClient :=
  if apikey = "" then .error "Missing APIKey"
  else if id = "" then .error "Missing COS Instance ID"
  else .ok { apiKey := apikey
             iamEndpoint := "https://iam.cloud.ibm.com/identity/token"
             id := id
             token := ""
             expires := 0
             endpoints := [] }

/-- Outcome of the IAM token-exchange interaction inside `Refresh`
(client.go lines 151-196): request construction may fail, the POST may fail,
reading the body may fail, `json.Unmarshal` may fail, or the body decodes
into the anonymous struct `{Access_token, Expiration, ..., ErrorMessage}`
(a decoded body with a non-empty `ErrorMessage` is the service-reported
error case). -/
inductive IAMResult where
  | reqError (msg : String)
  | netError (msg : String)
  | readError (msg : String)
  | parseError (msg : String) (body : String)
  | parsed (accessToken : String) (expiration : Int) (errorMessage : String)
deriving DecidableEq, Repr

/-- A token exchange that did not deliver a usable token: any transport
failure, or a decoded body whose `ErrorMessage` field is non-empty. -/
def IAMResult.isFailure : IAMResult → Bool
  | .parsed _ _ m => m != ""
  | _ => true

/-- `(*COSClient) Refresh()` (client.go lines 138-202) as a state
transformer.  Result: (client state after the call, returned error if any,
number of network calls made).  The guard is Go's
`time.Now().Add(refreshTime).Before(client.Expires)`, i.e. the strict
comparison `now + refreshTime < expires`; when it holds the function
returns immediately.  Otherwise the exchange runs and, only when it decodes
with an empty `ErrorMessage`, `client.Token` and `client.Expires` are both
overwritten; every failure path returns before touching them. -/
def refresh (now : Int) (st : COSClient) (r : IAMResult) :
    COSClient × Option String × Nat :=
  if now + refreshTime < st.expires then (st, none, 0)
  else
    match r with
    | .reqError m => (st, some ("Error creating HTTP client: " ++ m), 0)
    | .netError m => (st, some ("Error getting IAM token: " ++ m), 1)
    | .readError m => (st, some ("Error http response: " ++ m), 1)
    | .parseError m body =>
        (st, some ("Error parsing response: " ++ m ++ "\n" ++ body), 1)
    | .parsed tok exp msg =>
        if msg ≠ "" then (st, some msg, 1)
        else ({ st with token := tok, expires := exp }, none, 1)

/-- Helper for `splitDash`: split a character list at every `'-'`,
accumulating the current segment in reverse. -/
def splitDashAux : List Char → List Char → List String
  | [], acc => [String.mk acc.reverse]
  | '-' :: rest, acc => String.mk acc.reverse :: splitDashAux rest []
  | ch :: rest, acc => splitDashAux rest (ch :: acc)

/-- Go's `strings.Split(loc, "-")` (client.go line 429): the maximal
`'-'`-free segments of `loc`, in order; the empty string yields `[""]` and
adjacent dashes yield empty segments, as in Go. -/
def splitDash (s : String) : List String :=
  splitDashAux s.toList []

/-- The location-constraint parsing step of `GetEndpointForBucket`
(client.go lines 429-448).  `loc` is split on `"-"`; two segments give
`cross-region` with region = first segment unless that segment occurs among
the keys of the `single-site` section of the topology (then `single-site`);
three segments give `regional` with region = first two segments rejoined;
anything else is the `Can't split loc` failure. -/
def parseLocation (singleSites : List String) (loc : String) :
    Except String (String × String) :=
  match splitDash loc with
  | [reg, _] =>
      if singleSites.contains reg then .ok ("single-site", reg)
      else .ok ("cross-region", reg)
  | [r1, r2, _] => .ok ("regional", r1 ++ "-" ++ r2)
  | _ => .error ("Can't split loc: " ++ loc)

/-- Object metadata as produced by `ListObjects` (client.go lines 81-85);
only the `Key` field is consumed by the bulk-deletion coordinator. -/
structure ObjectMetadata where
  Key : String
  LastModified : String
  Size : Int
deriving DecidableEq, Repr

/-- The batch-partitioning loop of `DeleteBucketContents` (client.go lines
537-551): starting from index `start`, slice off `list[start:end]` with
`end = min(start+1000, len(list))`, project each element to its `Key`, and
continue from `end`.  The Go loop runs while `end != size` with `end`
initially `0` and the empty list handled before the loop, so the condition
at each iteration is `start < len(list)`. -/
def deleteBatches (list : List ObjectMetadata) (start : Nat) :
    List (List String) :=
  if _h : start < list.length then
    let e := if start + 1000 > list.length then list.length else start + 1000
    ((list.drop start).take (e - start)).map (fun o => o.Key) ::
      deleteBatches list e
  else []
termination_by list.length - start
decreasing_by
  split <;> omega

/-- Outcome of the service HTTP interaction inside `doHTTP` (client.go lines
210-259): request construction may fail, sending may fail, reading the body
may fail, or a response arrives with a numeric status code, the status line
`res.Status`, and a body. -/
inductive HTTPOutcome where
  | reqError (msg : String)
  | netError (msg : String)
  | readError (msg : String)
  | response (statusCode : Nat) (statusLine : String) (body : String)
deriving DecidableEq, Repr

/-- `(*COSClient) doHTTP(method, path, body, num, headers)` (client.go lines
204-261).  `iamR` is the outcome of the IAM exchange performed by the
`client.Refresh()` call on line 207 and `out` the outcome of the service
request.  Result: (client state after the call, returned body or error, the
`Authorization` header of the request that was actually sent, if one was).
The source discards the value returned by `client.Refresh()`, so the
embedding keeps only the refreshed state and drops the refresh error, then
builds the request with `"Bearer " + client.Token` from that state.  A
non-2xx status (integer division `res.StatusCode/100 != 2`) is turned into
an error from the status line, with the body appended when non-empty. -/
def doHTTP (now : Int) (st : COSClient) (iamR : IAMResult)
    (out : HTTPOutcome) : COSClient × Except String String × Option String :=
  let st' := (refresh now st iamR).1
  match out with
  | .reqError m => (st', .error ("Creating HTTP client: " ++ m), none)
  | .netError m => (st', .error m, some ("Bearer " ++ st'.token))
  | .readError m => (st', .error m, some ("Bearer " ++ st'.token))
  | .response code line body =>
      if code / 100 ≠ 2 then
        (st', .error (if body.length > 0 then line ++ ": " ++ body else line),
          some ("Bearer " ++ st'.token))
      else (st', .ok body, some ("Bearer " ++ st'.token))

/-- One bucket entry of the `ListBuckets` result (client.go lines 69-79). -/
structure Bucket where
  Name : String
  CreationDate : String
  LocationConstraint : String
deriving DecidableEq, Repr

/-- The nested `service-endpoints` topology
`map[type]map[region]map[scope]map[name]url` (client.go lines 330-340),
as nested association lists; a missing key behaves like Go's nil map,
i.e. an empty next level. -/
abbrev ServiceEndpoints := List (String × List (String × List (String × List (String × String))))

/-- Go map read `m[k]` where a missing key yields the nil (empty) map. -/
def lookupD (m : List (String × α)) (k : String) (d : α) : α :=
  (m.lookup k).getD d

/-- The key set of the `single-site` section of the topology, iterated by
the reclassification loop on client.go lines 437-442. -/
def singleSites (se : ServiceEndpoints) : List String :=
  (lookupD se "single-site" []).map Prod.fst

/-- `(*COSClient) GetEndpointForBucket(name)` (client.go lines 390-472).
`se` is the (process-wide cached) topology returned by `GetCOSEndpoints`
and `bucketList` the bucket list returned by `ListBuckets`, both taken as
successful here; the `Nat` counts authenticated network calls made by this
invocation (the `ListBuckets` call).  On a cache miss the first matching
bucket's location constraint is parsed, the first `name -> url` entry of
`topology[daType][reg]["public"]` is taken, and the write
`client.Endpoints[name] = url` from line 460 is performed — `name` there is
the loop variable of `for name, url := range names` (line 454), which
shadows the bucket-name parameter, so the written key is the endpoint name,
not the bucket name. -/
def getEndpointForBucket (se : ServiceEndpoints) (bucketList : List Bucket)
    (st : COSClient) (name : String) :
    COSClient × Except String String × Nat :=
  match st.endpoints.lookup name with
  | some url => (st, .ok url, 0)
  | none =>
    match bucketList.find? (fun b => b.Name == name) with
    | none => (st, .error ("Can't find bucket: " ++ name), 1)
    | some bucket =>
      match parseLocation (singleSites se) bucket.LocationConstraint with
      | .error e => (st, .error e, 1)
      | .ok (daType, reg) =>
        match lookupD (lookupD (lookupD se daType []) reg []) "public" [] with
        | [] => (st, .error ("Can't find endpoint for bucket: " ++ name), 1)
        | (epName, host) :: _ =>
          let url := "https://" ++ host
          ({ st with endpoints := (epName, url) :: st.endpoints }, .ok url, 1)

/-- Go's `fmt` rendering of an error value used as a `%s` verb: a nil error
prints as `%!s(<nil>)`, a non-nil error prints its message. -/
def goErrString : Option String → String
  | none => "%!s(<nil>)"
  | some s => s

/-- The body of the goroutine spawned per batch by `DeleteBucketContents`
(client.go lines 558-565), acting on the shared `resErr` variable: when the
batch's `DeleteObjects` call fails, it executes
`*pErr = fmt.Errorf("Error deleting bucket contents: %s", resErr)` — the
format argument is the shared `resErr` read at that moment, not the
batch's own error `err`. -/
def batchErrWrite (resErr : Option String) (batchErr : Option String) :
    Option String :=
  match batchErr with
  | none => resErr
  | some _ => some ("Error deleting bucket contents: " ++ goErrString resErr)

/-- The final value of `resErr` returned by `DeleteBucketContents` (client.go
line 572), given the per-batch `DeleteObjects` outcomes (`none` = success)
and the order in which the goroutine bodies complete: each completing
goroutine applies `batchErrWrite` to the shared variable. -/
def deleteContentsErr (outcomes : List (Option String)) (order : List Nat) :
    Option String :=
  order.foldl (fun resErr i => batchErrWrite resErr (outcomes.getD i none)) none

/-- Control locations of the `DeleteBucketContents` coordinator (client.go
lines 524-573): `dispatching` = at the top of the batch loop (including the
poll loop on lines 553-555), `slotAcquired` = the poll on line 553 has
observed `count < 10` and the dispatcher is between that check and the
`atomic.AddInt32(&count, 1)`/`go` on lines 557-558, `draining` = all batches
dispatched, in the wait loop on lines 568-570, `returned` = past it. -/
inductive DBCPhase where
  | dispatching
  | slotAcquired
  | draining
  | returned
deriving DecidableEq, Repr

/-- Shared state of one `DeleteBucketContents` invocation: `pending` batches
not yet handed to a goroutine, the atomic `count`, `inFlight` goroutines
currently inside their `DeleteObjects` call, and `finishing` goroutines
whose call has returned but whose deferred `atomic.AddInt32(&count, -1)`
has not yet run. -/
structure DBCState where
  pending : Nat
  count : Nat
  inFlight : Nat
  finishing : Nat
  phase : DBCPhase
deriving DecidableEq, Repr

/-- Initial coordinator state for `n` batches; with zero batches the
listing was empty and the function returned on line 534 before the loop,
which coincides with entering the (vacuous) final wait directly. -/
def dbcInit (n : Nat) : DBCState :=
  { pending := n, count := 0, inFlight := 0, finishing := 0,
    phase := if n = 0 then .draining else .dispatching }

/-- Interleaving semantics of `DeleteBucketContents`: one step of the
dispatcher or of some goroutine.  The dispatcher is the only incrementer of
`count`, so after it observes `count < 10` (line 553) the counter can only
have decreased by the time it increments (line 557). -/
inductive DBCStep : DBCState → DBCState → Prop where
  | acquire {s : DBCState} :
      s.phase = .dispatching → s.pending ≠ 0 → s.count < 10 →
      DBCStep s { s with phase := .slotAcquired }
  | spawn {s : DBCState} :
      s.phase = .slotAcquired →
      DBCStep s { s with
        count := s.count + 1
        inFlight := s.inFlight + 1
        pending := s.pending - 1
        phase := if s.pending - 1 = 0 then .draining else .dispatching }
  | callReturns {s : DBCState} :
      s.inFlight ≠ 0 →
      DBCStep s { s with inFlight := s.inFlight - 1, finishing := s.finishing + 1 }
  | decrement {s : DBCState} :
      s.finishing ≠ 0 →
      DBCStep s { s with finishing := s.finishing - 1, count := s.count - 1 }
  | finishWait {s : DBCState} :
      s.phase = .draining → s.count = 0 →
      DBCStep s { s with phase := .returned }

/-- States reachable by an invocation of `DeleteBucketContents` on `n`
batches. -/
inductive DBCReach (n : Nat) : DBCState → Prop where
  | init : DBCReach n (dbcInit n)
  | step {s s' : DBCState} : DBCReach n s → DBCStep s s' → DBCReach n s'

/-- UTF-8 encoding of one character (Go strings are UTF-8; `[]byte(body)`
on client.go line 691 yields these bytes). -/
def utf8Bytes (c : Char) : List Nat :=
  let n := c.toNat
  if n < 128 then [n]
  else if n < 2048 then [192 + n / 64, 128 + n % 64]
  else if n < 65536 then [224 + n / 4096, 128 + (n / 64) % 64, 128 + n % 64]
  else [240 + n / 262144, 128 + (n / 4096) % 64, 128 + (n / 64) % 64, 128 + n % 64]

/-- The bytes of a Go string (UTF-8). -/
def strBytes (s : String) : List Nat :=
  (s.toList.map utf8Bytes).flatten

/-- MD5 (RFC 1321) as used by Go's `md5.Sum`.  All arithmetic is `Nat`
reduced modulo `2^32` explicitly. -/
def md5K : List Nat :=
  [0xd76aa478, 0xe8c7b756, 0x242070db, 0xc1bdceee,
   0xf57c0faf, 0x4787c62a, 0xa8304613, 0xfd469501,
   0x698098d8, 0x8b44f7af, 0xffff5bb1, 0x895cd7be,
   0x6b901122, 0xfd987193, 0xa679438e, 0x49b40821,
   0xf61e2562, 0xc040b340, 0x265e5a51, 0xe9b6c7aa,
   0xd62f105d, 0x02441453, 0xd8a1e681, 0xe7d3fbc8,
   0x21e1cde6, 0xc33707d6, 0xf4d50d87, 0x455a14ed,
   0xa9e3e905, 0xfcefa3f8, 0x676f02d9, 0x8d2a4c8a,
   0xfffa3942, 0x8771f681, 0x6d9d6122, 0xfde5380c,
   0xa4beea44, 0x4bdecfa9, 0xf6bb4b60, 0xbebfbc70,
   0x289b7ec6, 0xeaa127fa, 0xd4ef3085, 0x04881d05,
   0xd9d4d039, 0xe6db99e5, 0x1fa27cf8, 0xc4ac5665,
   0xf4292244, 0x432aff97, 0xab9423a7, 0xfc93a039,
   0x655b59c3, 0x8f0ccc92, 0xffeff47d, 0x85845dd1,
   0x6fa87e4f, 0xfe2ce6e0, 0xa3014314, 0x4e0811a1,
   0xf7537e82, 0xbd3af235, 0x2ad7d2bb, 0xeb86d391]

/-- Per-operation left-rotation amounts of MD5. -/
def md5S : List Nat :=
  [7, 12, 17, 22, 7, 12, 17, 22, 7, 12, 17, 22, 7, 12, 17, 22,
   5, 9, 14, 20, 5, 9, 14, 20, 5, 9, 14, 20, 5, 9, 14, 20,
   4, 11, 16, 23, 4, 11, 16, 23, 4, 11, 16, 23, 4, 11, 16, 23,
   6, 10, 15, 21, 6, 10, 15, 21, 6, 10, 15, 21, 6, 10, 15, 21]

/-- 32-bit left rotation on `Nat` values below `2^32`. -/
def rotl32 (x n : Nat) : Nat :=
  ((x <<< n) ||| (x >>> (32 - n))) % 4294967296

/-- The nonlinear function of MD5 operation `i` (rounds of 16). -/
def md5F (i b c d : Nat) : Nat :=
  if i < 16 then (b &&& c) ||| ((4294967295 ^^^ b) &&& d)
  else if i < 32 then (d &&& b) ||| ((4294967295 ^^^ d) &&& c)
  else if i < 48 then b ^^^ c ^^^ d
  else c ^^^ (b ||| (4294967295 ^^^ d))

/-- The message-word index of MD5 operation `i`. -/
def md5G (i : Nat) : Nat :=
  if i < 16 then i
  else if i < 32 then (5 * i + 1) % 16
  else if i < 48 then (3 * i + 5) % 16
  else (7 * i) % 16

/-- Little-endian 32-bit word `j` of a 64-byte block. -/
def md5Word (block : List Nat) (j : Nat) : Nat :=
  block.getD (4 * j) 0 + 256 * block.getD (4 * j + 1) 0 +
    65536 * block.getD (4 * j + 2) 0 + 16777216 * block.getD (4 * j + 3) 0

/-- One MD5 operation applied to the running quadruple. -/
def md5Op (block : List Nat) (st : Nat × Nat × Nat × Nat) (i : Nat) :
    Nat × Nat × Nat × Nat :=
  let (a, b, c, d) := st
  let f := (md5F i b c d + a + md5K.getD i 0 + md5Word block (md5G i)) % 4294967296
  (d, (b + rotl32 f (md5S.getD i 0)) % 4294967296, b, c)

/-- Process one 64-byte block of MD5. -/
def md5Block (st : Nat × Nat × Nat × Nat) (block : List Nat) :
    Nat × Nat × Nat × Nat :=
  let (a0, b0, c0, d0) := st
  let (a, b, c, d) := (List.range 64).foldl (md5Op block) st
  ((a0 + a) % 4294967296, (b0 + b) % 4294967296,
   (c0 + c) % 4294967296, (d0 + d) % 4294967296)

/-- Process `n` consecutive 64-byte blocks. -/
def md5Blocks : Nat → List Nat → Nat × Nat × Nat × Nat → Nat × Nat × Nat × Nat
  | 0, _, st => st
  | n + 1, bytes, st => md5Blocks n (bytes.drop 64) (md5Block st (bytes.take 64))

/-- MD5 padding: append `0x80`, zero bytes up to 56 mod 64, then the
64-bit little-endian bit length. -/
def md5Pad (msg : List Nat) : List Nat :=
  let len := msg.length
  let zeros := (120 - (len + 1) % 64) % 64
  let bitLen := (8 * len) % 18446744073709551616
  msg ++ 128 :: List.replicate zeros 0 ++
    ((List.range 8).map (fun i => (bitLen >>> (8 * i)) % 256))

/-- The four little-endian bytes of a 32-bit word. -/
def wordLE (w : Nat) : List Nat :=
  [w % 256, (w >>> 8) % 256, (w >>> 16) % 256, (w >>> 24) % 256]

/-- Go's `md5.Sum`: the 16-byte MD5 digest of a byte sequence. -/
def md5Sum (msg : List Nat) : List Nat :=
  let padded := md5Pad msg
  let (a, b, c, d) :=
    md5Blocks (padded.length / 64) padded
      (0x67452301, 0xefcdab89, 0x98badcfe, 0x10325476)
  wordLE a ++ wordLE b ++ wordLE c ++ wordLE d

/-- Lower-case hex digit. -/
def hexDigit (n : Nat) : Char :=
  "0123456789abcdef".toList.getD n '0'

/-- Hex rendering of a digest, for checking `md5Sum` against the RFC 1321
test vectors. -/
def md5Hex (msg : List Nat) : String :=
  String.mk (((md5Sum msg).map (fun b => [hexDigit (b / 16), hexDigit (b % 16)])).flatten)

/-- The standard base64 alphabet used by Go's `base64.StdEncoding`. -/
def base64Alphabet : List Char :=
  "ABCDEFGHIJKLMNOPQRSTUVWXYZabcdefghijklmnopqrstuvwxyz0123456789+/".toList

/-- Character `n` of the standard base64 alphabet. -/
def b64c (n : Nat) : Char :=
  base64Alphabet.getD n 'A'

/-- Go's `base64.StdEncoding.EncodeToString` on a byte sequence. -/
def base64Encode : List Nat → String
  | [] => ""
  | [a] => String.mk [b64c (a / 4), b64c (a % 4 * 16)] ++ "=="
  | [a, b] =>
      String.mk [b64c (a / 4), b64c (a % 4 * 16 + b / 16), b64c (b % 16 * 4)] ++ "="
  | a :: b :: c :: rest =>
      String.mk [b64c (a / 4), b64c (a % 4 * 16 + b / 16),
        b64c (b % 16 * 4 + c / 64), b64c (c % 64)] ++ base64Encode rest

/-- The one HTTP request a client operation hands to `doHTTP`: method, URL,
body bytes and extra headers. -/
structure HTTPRequest where
  method : String
  path : String
  body : List Nat
  headers : List (String × String)
deriving DecidableEq, Repr

/-- The XML body built by the loop on client.go lines 685-689:
`body := "<Delete>"`, then `body += "<Object><Key>" + name + "</Key></Object>"`
per name, then `body += "</Delete>"`. -/
def deleteObjectsBody (names : List String) : String :=
  (names.foldl
    (fun body name => body ++ ("<Object><Key>" ++ name ++ "</Key></Object>"))
    "<Delete>") ++ "</Delete>"

/-- The request that `(*COSClient) DeleteObjects(bucket, names)` (client.go
lines 675-701) hands to `doHTTP`, given the already-resolved service URL:
a POST to `svcURL/bucket?delete` whose body is the XML key list and whose
only extra header is `Content-MD5`, the base64 of `md5.Sum` of the body
bytes. -/
def deleteObjectsRequest (svcURL bucket : String) (names : List String) :
    HTTPRequest :=
  let body := deleteObjectsBody names
  { method := "POST"
    path := svcURL ++ "/" ++ bucket ++ "?delete"
    body := strBytes body
    headers := [("Content-MD5", base64Encode (md5Sum (strBytes body)))] }

/-! Theorems -/

/-- Claim C10: `NewClient(apikey, id)` returns an error iff `apikey` or `id`
is empty; on success it performs no network call or token exchange (the
embedded `newClient` is a pure function because the `Refresh` call in the
source is commented out) and the returned client has the empty token and
zero expiry, so the first token is fetched lazily by a later operation. -/
theorem newClient_spec (apikey id : String) :
    (∀ c, newClient apikey id = .ok c →
      apikey ≠ "" ∧ id ≠ "" ∧ c.token = "" ∧ c.expires = 0 ∧
        c.endpoints = [] ∧ c.apiKey = apikey ∧ c.id = id) ∧
    ((apikey = "" ∨ id = "") → ∃ e, newClient apikey id = .error e) ∧
    (apikey ≠ "" → id ≠ "" →
      newClient apikey id = .ok
        { apiKey := apikey
          iamEndpoint := "https://iam.cloud.ibm.com/identity/token"
          id := id
          token := ""
          expires := 0
          endpoints := [] }) := by
  unfold newClient
  rcases eq_or_ne apikey "" with hk | hk <;> rcases eq_or_ne id "" with hi | hi <;>
    simp [hk, hi]

/-- Witness for C10 at concrete inputs. -/
theorem newClient_spec_witness :
    ("key" : String) ≠ "" ∧ ("id" : String) ≠ "" ∧
    newClient "key" "id" = .ok
      { apiKey := "key"
        iamEndpoint := "https://iam.cloud.ibm.com/identity/token"
        id := "id"
        token := ""
        expires := 0
        endpoints := [] } :=
  ⟨by decide, by decide, (newClient_spec "key" "id").2.2 (by decide) (by decide)⟩

/-- Claim C7: when the stored expiry is strictly later than `now` plus the
5-minute lookahead (`time.Now().Add(refreshTime).Before(client.Expires)`),
`Refresh` returns no error, makes no network call, and leaves token and
expiry unchanged. -/
theorem refresh_fresh_noop (now : Int) (st : COSClient) (r : IAMResult)
    (h : now + refreshTime < st.expires) :
    refresh now st r = (st, none, 0) := by
  simp [refresh, h]

/-- Witness for C7: a token expiring at 1000 with `now = 0` is fresh and a
failing exchange outcome is never consulted. -/
theorem refresh_fresh_noop_witness :
    (0 : Int) + refreshTime <
        ({ apiKey := "k", iamEndpoint := "e", id := "i", token := "t",
           expires := 1000, endpoints := [] } : COSClient).expires ∧
    refresh 0
        { apiKey := "k", iamEndpoint := "e", id := "i", token := "t",
          expires := 1000, endpoints := [] } (.netError "down")
      = ({ apiKey := "k", iamEndpoint := "e", id := "i", token := "t",
           expires := 1000, endpoints := [] }, none, 0) :=
  ⟨by decide, refresh_fresh_noop 0 _ _ (by decide)⟩

/-- Claim C6: when `Refresh` actually performs the exchange, every failing
outcome (transport failure, unreadable or malformed body, or a decoded body
with a non-empty service `ErrorMessage`) leaves the stored token and expiry
unchanged and returns an error; only an outcome decoding with an empty
`ErrorMessage` replaces both token and expiry, with no error. -/
theorem refresh_exchange_atomic (now : Int) (st : COSClient) (r : IAMResult)
    (hstale : ¬ now + refreshTime < st.expires) :
    (r.isFailure = true →
      (refresh now st r).1 = st ∧ ((refresh now st r).2.1).isSome = true) ∧
    (∀ tok exp, r = .parsed tok exp "" →
      refresh now st r = ({ st with token := tok, expires := exp }, none, 1)) := by
  constructor
  · intro hfail
    cases r with
    | parsed tok exp msg =>
        simp only [IAMResult.isFailure, ne_eq, bne_iff_ne] at hfail
        simp [refresh, hstale, hfail]
    | reqError m => simp [refresh, hstale]
    | netError m => simp [refresh, hstale]
    | readError m => simp [refresh, hstale]
    | parseError m b => simp [refresh, hstale]
  · rintro tok exp rfl
    simp [refresh, hstale]

/-- Witness for C6: with a stale expiry, a transport failure leaves the
state intact and reports an error. -/
theorem refresh_exchange_atomic_witness :
    (¬ (0 : Int) + refreshTime <
        ({ apiKey := "k", iamEndpoint := "e", id := "i", token := "old",
           expires := 0, endpoints := [] } : COSClient).expires) ∧
    (refresh 0
        { apiKey := "k", iamEndpoint := "e", id := "i", token := "old",
          expires := 0, endpoints := [] } (.netError "down")).1
      = { apiKey := "k", iamEndpoint := "e", id := "i", token := "old",
          expires := 0, endpoints := [] } ∧
    ((refresh 0
        { apiKey := "k", iamEndpoint := "e", id := "i", token := "old",
          expires := 0, endpoints := [] } (.netError "down")).2.1).isSome = true :=
  ⟨by decide,
    ((refresh_exchange_atomic 0 _ _ (by decide)).1 (by decide)).1,
    ((refresh_exchange_atomic 0 _ _ (by decide)).1 (by decide)).2⟩

/-- Claim C4: the location-constraint parsing of `GetEndpointForBucket`.
Splitting on `"-"`: two segments whose first is not a `single-site` key
give cross-region with that first segment as region; two segments whose
first is a `single-site` key give single-site; three segments give regional
with the first two segments rejoined by `"-"`; any other segment count is
the parse failure. -/
theorem getEndpointForBucket_parseLocation (sites : List String) (loc : String) :
    (∀ a b, splitDash loc = [a, b] → a ∉ sites →
      parseLocation sites loc = .ok ("cross-region", a)) ∧
    (∀ a b, splitDash loc = [a, b] → a ∈ sites →
      parseLocation sites loc = .ok ("single-site", a)) ∧
    (∀ a b c, splitDash loc = [a, b, c] →
      parseLocation sites loc = .ok ("regional", a ++ "-" ++ b)) ∧
    ((splitDash loc).length ≠ 2 → (splitDash loc).length ≠ 3 →
      parseLocation sites loc = .error ("Can't split loc: " ++ loc)) := by
  refine ⟨?_, ?_, ?_, ?_⟩
  · intro a b h hmem
    simp [parseLocation, h, hmem]
  · intro a b h hmem
    simp [parseLocation, h, hmem]
  · intro a b c h
    simp [parseLocation, h]
  · intro h2 h3
    rcases hl : splitDash loc with _ | ⟨a, _ | ⟨b, _ | ⟨c, _ | ⟨d, rest⟩⟩⟩⟩ <;>
      simp [parseLocation, hl] <;> rw [hl] at h2 h3 <;> simp at h2 h3

/-- Witness for C4 at the four concrete shapes from the spec:
`"us-smart"`, a single-site first segment, `"us-south-standard"`, and a
one-segment string. -/
theorem getEndpointForBucket_parseLocation_witness :
    (splitDash "us-smart" = ["us", "smart"] ∧ "us" ∉ (["hkg02"] : List String) ∧
      parseLocation ["hkg02"] "us-smart" = .ok ("cross-region", "us")) ∧
    (splitDash "hkg02-flex" = ["hkg02", "flex"] ∧
      "hkg02" ∈ (["hkg02"] : List String) ∧
      parseLocation ["hkg02"] "hkg02-flex" = .ok ("single-site", "hkg02")) ∧
    parseLocation ["hkg02"] "us-south-standard" = .ok ("regional", "us-south") ∧
    parseLocation ["hkg02"] "us" = .error ("Can't split loc: " ++ "us") :=
  ⟨⟨by decide, by decide,
      (getEndpointForBucket_parseLocation ["hkg02"] "us-smart").1 "us" "smart"
        (by decide) (by decide)⟩,
    ⟨by decide, by decide,
      (getEndpointForBucket_parseLocation ["hkg02"] "hkg02-flex").2.1 "hkg02" "flex"
        (by decide) (by decide)⟩,
    (getEndpointForBucket_parseLocation ["hkg02"] "us-south-standard").2.2.1
      "us" "south" "standard" (by decide),
    (getEndpointForBucket_parseLocation ["hkg02"] "us").2.2.2
      (by decide) (by decide)⟩

/-- One unfolding of the batch loop when keys remain. -/
theorem deleteBatches_step (list : List ObjectMetadata) (start : Nat)
    (h : start < list.length) :
    deleteBatches list start =
      ((list.drop start).take
        ((if start + 1000 > list.length then list.length else start + 1000) - start)).map
          (fun o => o.Key) ::
        deleteBatches list
          (if start + 1000 > list.length then list.length else start + 1000) := by
  rw [deleteBatches.eq_def, dif_pos h]

/-- The batches concatenate back to the keys of the listed objects, in
order. -/
theorem deleteBatches_flatten (list : List ObjectMetadata) :
    ∀ start, (deleteBatches list start).flatten
      = (list.drop start).map (fun o => o.Key) := by
  intro start
  generalize hm : list.length - start = m
  induction m using Nat.strong_induction_on generalizing start with
  | _ m ih =>
  by_cases hx : start < list.length
  · subst hm
    rw [deleteBatches_step list start hx]
    set e := if start + 1000 > list.length then list.length else start + 1000 with he
    have h1 : start < e := by rw [he]; split <;> omega
    have h2 : e ≤ list.length := by rw [he]; split <;> omega
    rw [List.flatten_cons]
    rw [ih (list.length - e) (by omega) e rfl]
    rw [show list.drop e = (list.drop start).drop (e - start) from by
      rw [List.drop_drop]
      congr 1
      omega]
    rw [← List.map_append, List.take_append_drop]
  · rw [deleteBatches.eq_def, dif_neg hx]
    rw [List.drop_eq_nil_of_le (by omega)]
    simp

/-- Every batch holds at most 1000 keys and none is empty. -/
theorem deleteBatches_sizes (list : List ObjectMetadata) :
    ∀ start, ∀ b ∈ deleteBatches list start, b.length ≤ 1000 ∧ b ≠ [] := by
  intro start
  generalize hm : list.length - start = m
  induction m using Nat.strong_induction_on generalizing start with
  | _ m ih =>
  intro b hb
  by_cases hx : start < list.length
  · subst hm
    rw [deleteBatches_step list start hx] at hb
    set e := if start + 1000 > list.length then list.length else start + 1000 with he
    have h1 : start < e := by rw [he]; split <;> omega
    have h2 : e ≤ list.length := by rw [he]; split <;> omega
    have h3 : e - start ≤ 1000 := by rw [he]; split <;> omega
    rw [List.mem_cons] at hb
    rcases hb with rfl | hb
    · constructor
      · simp only [List.length_map, List.length_take, List.length_drop]
        omega
      · apply List.ne_nil_of_length_pos
        simp only [List.length_map, List.length_take, List.length_drop]
        omega
    · exact ih (list.length - e) (by omega) e rfl b hb
  · rw [deleteBatches.eq_def, dif_neg hx] at hb
    simp at hb

/-- A 2500-key listing is cut into exactly three batches of sizes 1000,
1000 and 500. -/
theorem deleteBatches_lengths_2500 (list : List ObjectMetadata)
    (h : list.length = 2500) :
    (deleteBatches list 0).map List.length = [1000, 1000, 500] := by
  rw [deleteBatches_step list 0 (by omega)]
  rw [show (if 0 + 1000 > list.length then list.length else 0 + 1000) = 1000 from by
    rw [if_neg (by omega)]]
  rw [deleteBatches_step list 1000 (by omega)]
  rw [show (if 1000 + 1000 > list.length then list.length else 1000 + 1000) = 2000 from by
    rw [if_neg (by omega)]]
  rw [deleteBatches_step list 2000 (by omega)]
  rw [show (if 2000 + 1000 > list.length then list.length else 2000 + 1000) = 2500 from by
    rw [if_pos (by omega), h]]
  rw [show deleteBatches list 2500 = [] from by
    rw [deleteBatches.eq_def, dif_neg (by omega)]]
  simp only [List.map_cons, List.map_nil, List.length_map, List.length_take,
    List.length_drop, h]
  norm_num

/-- Claim C5: `DeleteBucketContents` partitions a non-empty object list into
contiguous batches of at most 1000 keys covering every key exactly once in
listing order; 2500 keys give exactly the batch sizes 1000, 1000, 500. -/
theorem deleteBucketContents_batching (l : List ObjectMetadata) (_hne : l ≠ []) :
    (deleteBatches l 0).flatten = l.map (fun o => o.Key) ∧
    (∀ b ∈ deleteBatches l 0, b.length ≤ 1000 ∧ b ≠ []) ∧
    (l.length = 2500 → (deleteBatches l 0).map List.length = [1000, 1000, 500]) := by
  refine ⟨?_, fun b hb => deleteBatches_sizes l 0 b hb,
    fun h => deleteBatches_lengths_2500 l h⟩
  have h0 := deleteBatches_flatten l 0
  simpa using h0

/-- Witness for C5 on a concrete one-object listing. -/
theorem deleteBucketContents_batching_witness :
    ([{ Key := "k1", LastModified := "", Size := 0 }] : List ObjectMetadata) ≠ [] ∧
    (deleteBatches [{ Key := "k1", LastModified := "", Size := 0 }] 0).flatten
      = ["k1"] :=
  ⟨by decide,
    (deleteBucketContents_batching _ (by decide)).1.trans (by rfl)⟩

/-- Folding `++` over a string list prepends the accumulator to the join. -/
theorem foldl_append_eq_join (l : List String) :
    ∀ init : String, l.foldl (fun a b => a ++ b) init = init ++ String.join l := by
  induction l with
  | nil =>
    intro init
    simp [String.join, String.append_empty]
  | cons x l ih =>
    intro init
    show l.foldl _ (init ++ x) = init ++ String.join (x :: l)
    rw [ih]
    have hx : String.join (x :: l) = x ++ String.join l := by
      show l.foldl _ ("" ++ x) = _
      rw [String.empty_append, ih x]
    rw [hx, String.append_assoc]

/-- The `body +=` loop equals the join of the per-name fragments. -/
theorem foldl_append_map_eq_join (f : String → String) (names : List String)
    (init : String) :
    names.foldl (fun b n => b ++ f n) init = init ++ String.join (names.map f) := by
  rw [← List.foldl_map, foldl_append_eq_join]

/-- RFC 1321 test vector: MD5 of the empty message. -/
theorem md5Sum_vector_empty :
    md5Hex (strBytes "") = "d41d8cd98f00b204e9800998ecf8427e" := by decide

/-- RFC 1321 test vector: MD5 of `"abc"`. -/
theorem md5Sum_vector_abc :
    md5Hex (strBytes "abc") = "900150983cd24fb0d6963f7d28e17f72" := by decide

/-- RFC 4648 test vector for the standard base64 encoding. -/
theorem base64Encode_vector :
    base64Encode [77, 97, 110] = "TWFu" ∧ base64Encode [77, 97] = "TWE=" ∧
      base64Encode [77] = "TQ==" := by decide

/-- Claim C8: `DeleteObjects` sends one POST to `svcURL/bucket?delete` whose
body is `<Delete>` followed by `<Object><Key>k</Key></Object>` for each key
`k` in order followed by `</Delete>`, and whose only extra header is
`Content-MD5`, the base64 of the MD5 digest of exactly that body. -/
theorem deleteObjects_request (svcURL bucket : String) (names : List String) :
    (deleteObjectsRequest svcURL bucket names).method = "POST" ∧
    (deleteObjectsRequest svcURL bucket names).path
      = svcURL ++ "/" ++ bucket ++ "?delete" ∧
    (deleteObjectsRequest svcURL bucket names).body
      = strBytes ("<Delete>" ++
          String.join (names.map
            (fun k => "<Object><Key>" ++ k ++ "</Key></Object>")) ++
          "</Delete>") ∧
    (deleteObjectsRequest svcURL bucket names).headers
      = [("Content-MD5",
          base64Encode (md5Sum ((deleteObjectsRequest svcURL bucket names).body)))] := by
  have hbody : deleteObjectsBody names
      = "<Delete>" ++
          String.join (names.map
            (fun k => "<Object><Key>" ++ k ++ "</Key></Object>")) ++
          "</Delete>" := by
    unfold deleteObjectsBody
    rw [foldl_append_map_eq_join]
  refine ⟨rfl, rfl, ?_, rfl⟩
  show strBytes (deleteObjectsBody names) = _
  rw [hbody]

/-- Independent check of the `Content-MD5` value on a concrete request
(digest computed with a reference MD5 implementation). -/
theorem deleteObjects_contentMD5_sample :
    (deleteObjectsRequest "https://s3.example" "b" ["a"]).headers
      = [("Content-MD5", "aFPqFnlCon58cZ4Qt7zwvQ==")] := by decide

/-- Claim C1 (refuted): when exactly batch 2 of 3 fails with underlying
error `"boom"`, the error returned by `DeleteBucketContents` is — for every
completion order of the three goroutines — the string
`Error deleting bucket contents: %!s(<nil>)`: line 563 formats the shared
`resErr` (still nil) instead of the batch's own `err`, so the first failing
batch's underlying error is never referenced. -/
theorem deleteBucketContents_error_text_lost :
    (([[0, 1, 2], [0, 2, 1], [1, 0, 2], [1, 2, 0], [2, 0, 1], [2, 1, 0]] :
        List (List Nat)).all (fun order =>
      deleteContentsErr [none, some "boom", none] order
        == some "Error deleting bucket contents: %!s(<nil>)")) = true ∧
    deleteContentsErr [none, some "boom", none] [0, 1, 2]
      ≠ some ("Error deleting bucket contents: " ++ "boom") := by decide

/-- The topology fragment used to exercise the endpoint cache: one
cross-region `us` public endpoint named `us-geo`. -/
def topoUS : ServiceEndpoints :=
  [("cross-region",
    [("us",
      [("public",
        [("us-geo", "s3.us.cloud-object-storage.appdomain.cloud")])])])]

/-- A bucket listing with one bucket `mybucket` located at `us-standard`. -/
def bucketsUS : List Bucket :=
  [{ Name := "mybucket", CreationDate := "", LocationConstraint := "us-standard" }]

/-- A client with an empty endpoint cache. -/
def clientUS : COSClient :=
  { apiKey := "k", iamEndpoint := "e", id := "i", token := "t",
    expires := 0, endpoints := [] }

/-- Claim C2 (refuted): resolving `mybucket` succeeds and makes one network
call, but the write on client.go line 460 keys the cache by the shadowed
loop variable `name` of `for name, url := range names` — the endpoint name
`us-geo` — not by the bucket name, contradicting the struct's own comment
`Endpoints map[string]string // BucketName -> URL`; consequently a second
resolution of `mybucket` misses the cache and performs a network call
again instead of none. -/
theorem getEndpointForBucket_cache_miskeyed :
    (getEndpointForBucket topoUS bucketsUS clientUS "mybucket").2.1
      = .ok "https://s3.us.cloud-object-storage.appdomain.cloud" ∧
    (getEndpointForBucket topoUS bucketsUS clientUS "mybucket").2.2 = 1 ∧
    ((getEndpointForBucket topoUS bucketsUS clientUS "mybucket").1).endpoints
      = [("us-geo", "https://s3.us.cloud-object-storage.appdomain.cloud")] ∧
    ((getEndpointForBucket topoUS bucketsUS clientUS "mybucket").1).endpoints.lookup
        "mybucket" = none ∧
    (getEndpointForBucket topoUS bucketsUS
        ((getEndpointForBucket topoUS bucketsUS clientUS "mybucket").1)
        "mybucket").2.2 = 1 :=
  ⟨rfl, rfl, rfl, rfl, rfl⟩

/-- Claim C3 (refuted): with an empty stored token and a failing IAM
exchange, `Refresh` itself reports
`Error getting IAM token: iam endpoint is down`, yet `doHTTP` — whose call
`client.Refresh()` on line 207 discards that error — proceeds, sends the
request with the stale header `Bearer ` (empty token), and returns the
service's successful body instead of surfacing the refresh error. -/
theorem doHTTP_swallows_refresh_error :
    doHTTP 0
        { apiKey := "k", iamEndpoint := "e", id := "i", token := "",
          expires := 0, endpoints := [] }
        (.netError "iam endpoint is down") (.response 200 "200 OK" "payload")
      = ({ apiKey := "k", iamEndpoint := "e", id := "i", token := "",
           expires := 0, endpoints := [] },
         .ok "payload", some "Bearer ") ∧
    (refresh 0
        { apiKey := "k", iamEndpoint := "e", id := "i", token := "",
          expires := 0, endpoints := [] }
        (.netError "iam endpoint is down")).2.1
      = some "Error getting IAM token: iam endpoint is down" :=
  ⟨rfl, rfl⟩

/-- Inductive invariant of the coordinator: the counter equals the number
of unfinished goroutines, never exceeds 10, is strictly below 10 while the
dispatcher holds a fresh observation of the poll, batches are all
dispatched once the final wait is entered, and the final wait exits only at
counter zero. -/
def DBCInv (s : DBCState) : Prop :=
  s.count = s.inFlight + s.finishing ∧
  s.count ≤ 10 ∧
  (s.phase = .slotAcquired → s.count < 10 ∧ s.pending ≠ 0) ∧
  ((s.phase = .draining ∨ s.phase = .returned) → s.pending = 0) ∧
  (s.phase = .returned → s.count = 0)

/-- The invariant holds initially. -/
theorem dbcInv_init (n : Nat) : DBCInv (dbcInit n) := by
  unfold DBCInv dbcInit
  by_cases h : n = 0 <;> simp [h]

/-- The invariant is preserved by every step. -/
theorem dbcInv_step (s s' : DBCState) (hinv : DBCInv s) (hstep : DBCStep s s') :
    DBCInv s' := by
  obtain ⟨h1, h2, h3, h4, h5⟩ := hinv
  cases hstep with
  | acquire hph hpend hcnt =>
      refine ⟨h1, h2, fun _ => ⟨hcnt, hpend⟩, fun h => ?_, fun h => ?_⟩ <;>
        simp at h
  | spawn hph =>
      obtain ⟨hc10, _⟩ := h3 hph
      by_cases hp : s.pending - 1 = 0
      · refine ⟨?_, ?_, ?_, ?_, ?_⟩
        · show s.count + 1 = s.inFlight + 1 + s.finishing
          omega
        · show s.count + 1 ≤ 10
          omega
        · intro h
          simp [hp] at h
        · intro _
          show s.pending - 1 = 0
          exact hp
        · intro h
          simp [hp] at h
      · refine ⟨?_, ?_, ?_, ?_, ?_⟩
        · show s.count + 1 = s.inFlight + 1 + s.finishing
          omega
        · show s.count + 1 ≤ 10
          omega
        · intro h
          simp [hp] at h
        · intro h
          simp [hp] at h
        · intro h
          simp [hp] at h
  | callReturns hfl =>
      refine ⟨?_, h2, h3, h4, h5⟩
      show s.count = s.inFlight - 1 + (s.finishing + 1)
      omega
  | decrement hfin =>
      refine ⟨?_, ?_, fun h => ?_, h4, fun h => ?_⟩
      · show s.count - 1 = s.inFlight + (s.finishing - 1)
        omega
      · show s.count - 1 ≤ 10
        omega
      · have hs := h3 h
        refine ⟨?_, hs.2⟩
        show s.count - 1 < 10
        omega
      · have hc := h5 h
        show s.count - 1 = 0
        omega
  | finishWait hph hcnt =>
      refine ⟨h1, h2, fun h => ?_, fun _ => h4 (Or.inl hph), fun _ => hcnt⟩
      simp at h

/-- Every reachable coordinator state satisfies the invariant. -/
theorem dbcReach_inv (n : Nat) {s : DBCState} (h : DBCReach n s) : DBCInv s := by
  induction h with
  | init => exact dbcInv_init n
  | step _ hstep ih => exact dbcInv_step _ _ ih hstep

/-- Claim C9: in every reachable state of a `DeleteBucketContents`
invocation, at most 10 batch-delete calls are in flight (the atomic
counter, incremented before each spawn and decremented on completion,
bounds them and never exceeds 10), and once the coordinator has returned
every dispatched batch has finished. -/
theorem deleteBucketContents_concurrency_cap (n : Nat) (s : DBCState)
    (h : DBCReach n s) :
    s.inFlight ≤ 10 ∧ s.count ≤ 10 ∧
    (s.phase = .returned →
      s.inFlight = 0 ∧ s.finishing = 0 ∧ s.pending = 0) := by
  obtain ⟨h1, h2, _h3, h4, h5⟩ := dbcReach_inv n h
  refine ⟨by omega, h2, fun hr => ?_⟩
  have hc := h5 hr
  have hp := h4 (Or.inr hr)
  exact ⟨by omega, by omega, hp⟩

/-- Witness for C9: the initial state of a 25-batch invocation is
reachable. -/
theorem deleteBucketContents_concurrency_cap_witness :
    (dbcInit 25).inFlight ≤ 10 ∧ (dbcInit 25).count ≤ 10 ∧
    ((dbcInit 25).phase = .returned →
      (dbcInit 25).inFlight = 0 ∧ (dbcInit 25).finishing = 0 ∧
        (dbcInit 25).pending = 0) :=
  deleteBucketContents_concurrency_cap 25 (dbcInit 25) DBCReach.init

end CosClient
